import Mathlib

/-!
Shallow embedding of the financial core of the MVG marketplace backend:
the wallet ledger (Wallet model and `addTransaction`), the withdrawal
state machine, the reconciliation engine (`recomputeWalletForSeller`),
the order splitter (`createOrder` / `createOrderForRazorpay`), the
delivery-credit path (`updateOrderStatus`), and the payment capture
coordinator (`capturePaymentForOrders`).

Money amounts are modelled as exact rationals; database documents are
records; Mongo sessions are modelled by distinguishing writes that are
buffered in the transaction (applied on commit, dropped on abort) from
writes performed outside the session (applied immediately).
-/

namespace MVG

/-- Transaction type enum of the wallet transaction sub-schema. -/
inductive TxType
  | credit
  | debit
  deriving DecidableEq, Repr

/-- Transaction status enum of the wallet transaction sub-schema. -/
inductive TxStatus
  | completed
  | pending
  | failed
  deriving DecidableEq, Repr

/-- One ledger entry (the embedded `transactions` sub-document of a Wallet). -/
structure Transaction where
  type : TxType
  amount : ℚ
  description : String
  orderId : Option Nat := none
  withdrawalId : Option Nat := none
  balance : ℚ
  status : TxStatus := TxStatus.completed
  deriving DecidableEq, Repr

/-- The Wallet document: one per seller, cached aggregates plus the
embedded transaction log. -/
structure Wallet where
  seller : Nat
  balance : ℚ := 0
  totalEarnings : ℚ := 0
  totalWithdrawn : ℚ := 0
  pendingWithdrawals : ℚ := 0
  transactions : List Transaction := []
  isActive : Bool := true
  deriving DecidableEq, Repr

/-- `walletSchema.methods.addTransaction`: pushes an entry whose `balance`
field is the wallet's balance at push time, then applies the amount to
`balance` and to `totalEarnings` (credit) or `totalWithdrawn` (debit),
and saves. -/
def addTransaction (w : Wallet) (type : TxType) (amount : ℚ) (description : String)
    (orderId : Option Nat := none) (withdrawalId : Option Nat := none) : Wallet :=
  let t : Transaction :=
    { type := type, amount := amount, description := description,
      orderId := orderId, withdrawalId := withdrawalId,
      balance := w.balance, status := TxStatus.completed }
  let w := { w with transactions := w.transactions ++ [t] }
  match type with
  | TxType.credit =>
      { w with balance := w.balance + amount, totalEarnings := w.totalEarnings + amount }
  | TxType.debit =>
      { w with balance := w.balance - amount, totalWithdrawn := w.totalWithdrawn + amount }

/-- Withdrawal request status enum. -/
inductive WStatus
  | pending
  | approved
  | rejected
  | processed
  deriving DecidableEq, Repr

/-- The WithdrawalRequest document (audit fields beyond the external
transaction id are omitted as they carry no ledger meaning). -/
structure WithdrawalRequest where
  id : Nat
  seller : Nat
  amount : ℚ
  status : WStatus := WStatus.pending
  transactionId : Option String := none
  deriving DecidableEq, Repr

/-- Errors raised by `createWithdrawalRequest`. -/
inductive WithdrawError
  | minAmount
  | insufficientBalance
  | pendingExists
  deriving DecidableEq, Repr

/-- Errors raised by the admin withdrawal endpoints. -/
inductive AdminError
  | notPending
  | notApproved
  deriving DecidableEq, Repr

/-- Per-seller financial state: the seller's wallet document (if any) and
their withdrawal requests. -/
structure SellerFinState where
  wallet : Option Wallet
  withdrawals : List WithdrawalRequest
  deriving DecidableEq, Repr

/-- `WithdrawalRequest.countDocuments({ seller, status: 'pending' })`. -/
def pendingCount (st : SellerFinState) (sellerId : Nat) : Nat :=
  (st.withdrawals.filter
    (fun r => decide (r.seller = sellerId ∧ r.status = WStatus.pending))).length

/-- `createWithdrawalRequest`: checks the 100 minimum, the wallet balance
and the absence of a pending request, then creates the request, moves the
amount from `balance` into `pendingWithdrawals`, and pushes a
pending debit entry (recording the post-move balance) without touching
`totalWithdrawn`/`totalEarnings`. The state is returned unchanged on
every error path. -/
def createWithdrawalRequest (st : SellerFinState) (sellerId wrId : Nat) (amount : ℚ) :
    Except WithdrawError WithdrawalRequest × SellerFinState :=
  if amount < 100 then (Except.error WithdrawError.minAmount, st)
  else
    match st.wallet with
    | none => (Except.error WithdrawError.insufficientBalance, st)
    | some w =>
      if w.balance < amount then (Except.error WithdrawError.insufficientBalance, st)
      else if 0 < pendingCount st sellerId then
        (Except.error WithdrawError.pendingExists, st)
      else
        let wr : WithdrawalRequest :=
          { id := wrId, seller := sellerId, amount := amount, status := WStatus.pending }
        let w := { w with pendingWithdrawals := w.pendingWithdrawals + amount,
                          balance := w.balance - amount }
        let w := { w with transactions := w.transactions ++
          [{ type := TxType.debit, amount := amount,
             description := "Withdrawal request created",
             orderId := none, withdrawalId := some wrId,
             balance := w.balance, status := TxStatus.pending }] }
        (Except.ok wr, { wallet := some w, withdrawals := st.withdrawals ++ [wr] })

/-- `approveWithdrawal`: requires `pending`; pure status transition, no
wallet effect. -/
def approveWithdrawal (wr : WithdrawalRequest) : Except AdminError WithdrawalRequest :=
  if wr.status ≠ WStatus.pending then Except.error AdminError.notPending
  else Except.ok { wr with status := WStatus.approved }

/-- `rejectWithdrawal`: requires `pending`; transitions to `rejected`,
then (when the wallet exists) reverses the hold — `pendingWithdrawals`
down, `balance` up — and pushes a completed refund credit entry. -/
def rejectWithdrawal (wr : WithdrawalRequest) (wallet : Option Wallet) :
    Except AdminError (WithdrawalRequest × Option Wallet) :=
  if wr.status ≠ WStatus.pending then Except.error AdminError.notPending
  else
    let wr := { wr with status := WStatus.rejected }
    match wallet with
    | none => Except.ok (wr, none)
    | some w =>
      let w := { w with pendingWithdrawals := w.pendingWithdrawals - wr.amount,
                        balance := w.balance + wr.amount }
      let w := { w with transactions := w.transactions ++
        [{ type := TxType.credit, amount := wr.amount,
           description := "Withdrawal request rejected - amount refunded",
           orderId := none, withdrawalId := some wr.id,
           balance := w.balance, status := TxStatus.completed }] }
      Except.ok (wr, some w)

/-- Flip the status of the first matching pending debit entry in the given
list to `completed`; `none` when no entry matches. `processWithdrawal`
applies this to the reversed log, mirroring
`transactions.slice().reverse().find(...)`. -/
def markFirstPendingDebit (wid : Nat) : List Transaction → Option (List Transaction)
  | [] => none
  | t :: ts =>
    if t.withdrawalId = some wid ∧ t.type = TxType.debit ∧ t.status = TxStatus.pending then
      some ({ t with status := TxStatus.completed } :: ts)
    else
      (markFirstPendingDebit wid ts).map (fun r => t :: r)

/-- `processWithdrawal`: requires `approved`; transitions to `processed`
with the external transaction id, then (when the wallet exists) moves the
amount from `pendingWithdrawals` into `totalWithdrawn` (balance
untouched), flips the latest matching pending debit entry to `completed`,
or appends a completed debit entry as a fallback when none is found. -/
def processWithdrawal (wr : WithdrawalRequest) (wallet : Option Wallet) (txId : String) :
    Except AdminError (WithdrawalRequest × Option Wallet) :=
  if wr.status ≠ WStatus.approved then Except.error AdminError.notApproved
  else
    let wr := { wr with status := WStatus.processed, transactionId := some txId }
    match wallet with
    | none => Except.ok (wr, none)
    | some w =>
      let w := { w with pendingWithdrawals := w.pendingWithdrawals - wr.amount,
                        totalWithdrawn := w.totalWithdrawn + wr.amount }
      match markFirstPendingDebit wr.id w.transactions.reverse with
      | some revTxs => Except.ok (wr, some { w with transactions := revTxs.reverse })
      | none => Except.ok (wr, some { w with transactions := w.transactions ++
          [{ type := TxType.debit, amount := wr.amount,
             description := "Withdrawal processed",
             orderId := none, withdrawalId := some wr.id,
             balance := w.balance, status := TxStatus.completed }] })

/-- A line item snapshot stored on an Order. -/
structure OrderItem where
  product : Nat
  name : String
  image : String
  price : ℚ
  quantity : ℚ
  sku : String
  deriving DecidableEq, Repr

/-- The structured payment result attached to an order at capture. -/
structure PaymentResult where
  payId : String
  status : String
  razorpayOrderId : String
  razorpaySignature : String
  deriving DecidableEq, Repr

/-- The Order document (fields relevant to splitting, delivery crediting,
reconciliation, idempotency and payment capture). -/
structure Order where
  id : Nat
  user : Nat
  seller : Nat
  orderNumber : String := ""
  orderItems : List OrderItem := []
  itemsPrice : ℚ := 0
  taxPrice : ℚ := 0
  shippingPrice : ℚ := 0
  discount : ℚ := 0
  totalPrice : ℚ := 0
  orderStatus : String := "pending"
  paymentStatus : String := "pending"
  paymentMethod : String := ""
  commission : Option ℚ := none
  sellerEarnings : Option ℚ := none
  isEarningsCredited : Bool := false
  orderIdempotencyKey : Option String := none
  razorpayOrderId : Option String := none
  paymentResult : Option PaymentResult := none
  createdAt : Int := 0
  deriving DecidableEq, Repr

/-! ### Reconciliation engine (`recomputeWalletForSeller`) -/

/-- In-memory accumulator of the recomputation: the rebuilt log and the
four running aggregates. -/
structure LedgerCalc where
  transactions : List Transaction := []
  runningBalance : ℚ := 0
  totalEarnings : ℚ := 0
  totalWithdrawn : ℚ := 0
  pendingWithdrawals : ℚ := 0
  deriving DecidableEq, Repr

/-- Credit one delivered order during recomputation: the commission
defaults to 10 percent of `totalPrice` when unset or non-positive, the
earnings default to `totalPrice` minus that commission, and a completed
credit entry recording the new running balance is appended. -/
def creditDeliveredOrder (acc : LedgerCalc) (o : Order) : LedgerCalc :=
  let commission : ℚ :=
    match o.commission with
    | some c => if 0 < c then c else o.totalPrice * (10 / 100)
    | none => o.totalPrice * (10 / 100)
  let sellerEarnings : ℚ :=
    match o.sellerEarnings with
    | some e => if 0 < e then e else o.totalPrice - commission
    | none => o.totalPrice - commission
  let rb := acc.runningBalance + sellerEarnings
  { acc with runningBalance := rb,
             totalEarnings := acc.totalEarnings + sellerEarnings,
             transactions := acc.transactions ++
               [{ type := TxType.credit, amount := sellerEarnings,
                  description := "Earnings from order " ++ o.orderNumber,
                  orderId := some o.id, withdrawalId := none,
                  balance := rb, status := TxStatus.completed }] }

/-- Replay one withdrawal request during recomputation, according to its
current status: pending/approved produce a hold debit; rejected produces
a synthetic debit-then-refund pair; processed produces a completed debit
counted in `totalWithdrawn`. -/
def applyWithdrawalTx (acc : LedgerCalc) (wr : WithdrawalRequest) : LedgerCalc :=
  match wr.status with
  | WStatus.pending | WStatus.approved =>
    let rb := acc.runningBalance - wr.amount
    { acc with runningBalance := rb,
               pendingWithdrawals := acc.pendingWithdrawals + wr.amount,
               transactions := acc.transactions ++
                 [{ type := TxType.debit, amount := wr.amount,
                    description := "Withdrawal request created",
                    orderId := none, withdrawalId := some wr.id,
                    balance := rb, status := TxStatus.pending }] }
  | WStatus.rejected =>
    let rb := acc.runningBalance - wr.amount
    let acc : LedgerCalc := { acc with
      runningBalance := rb,
      transactions := acc.transactions ++
        [{ type := TxType.debit, amount := wr.amount,
           description := "Withdrawal request created",
           orderId := none, withdrawalId := some wr.id,
           balance := rb, status := TxStatus.pending }] }
    let rb2 := acc.runningBalance + wr.amount
    { acc with runningBalance := rb2,
               transactions := acc.transactions ++
                 [{ type := TxType.credit, amount := wr.amount,
                    description := "Withdrawal request rejected - amount refunded",
                    orderId := none, withdrawalId := some wr.id,
                    balance := rb2, status := TxStatus.completed }] }
  | WStatus.processed =>
    let rb := acc.runningBalance - wr.amount
    { acc with runningBalance := rb,
               totalWithdrawn := acc.totalWithdrawn + wr.amount,
               transactions := acc.transactions ++
                 [{ type := TxType.debit, amount := wr.amount,
                    description := "Withdrawal processed",
                    orderId := none, withdrawalId := some wr.id,
                    balance := rb, status := TxStatus.completed }] }

/-- The in-memory part of `recomputeWalletForSeller`: replay the seller's
delivered orders in creation order, then all their withdrawal requests in
creation order. `orders` and `withdrawals` stand for the two source
queries, already in `createdAt` order. -/
def recomputeLedger (orders : List Order) (withdrawals : List WithdrawalRequest) :
    LedgerCalc :=
  let delivered := orders.filter (fun o => o.orderStatus == "delivered")
  withdrawals.foldl applyWithdrawalTx (delivered.foldl creditDeliveredOrder {})

/-- `recomputeWalletForSeller`: recompute the desired ledger state
entirely in memory and persist it with one atomic upsert that replaces
the transaction log and all four aggregates (`$set` keeps the remaining
fields of an existing document; a fresh document gets schema defaults).
The previously stored wallet is fetched but its ledger state is never
read. -/
def recomputeWalletForSeller (existing : Option Wallet) (sellerId : Nat)
    (orders : List Order) (withdrawals : List WithdrawalRequest) : Wallet :=
  let r := recomputeLedger orders withdrawals
  match existing with
  | some w =>
    { w with seller := sellerId, transactions := r.transactions,
             balance := r.runningBalance, totalEarnings := r.totalEarnings,
             totalWithdrawn := r.totalWithdrawn,
             pendingWithdrawals := r.pendingWithdrawals }
  | none =>
    { seller := sellerId, transactions := r.transactions,
      balance := r.runningBalance, totalEarnings := r.totalEarnings,
      totalWithdrawn := r.totalWithdrawn,
      pendingWithdrawals := r.pendingWithdrawals, isActive := true }

/-! ### Order splitter (`createOrder` / `createOrderForRazorpay`) -/

/-- One item of the request body's `items` array; `price` is the
client-supplied unit price, `sellerProduct` the seller-listing id. -/
structure ReqItem where
  product : Nat
  seller : Nat
  sellerProduct : Nat
  quantity : ℚ
  price : ℚ
  deriving DecidableEq, Repr

/-- The Product document (fields read by the splitter). -/
structure Product where
  id : Nat
  name : String
  image : String
  sku : String
  totalSold : ℚ
  deriving DecidableEq, Repr

/-- The SellerProduct (seller listing) document. -/
structure SellerProduct where
  id : Nat
  seller : Nat
  sellerPrice : ℚ
  deriving DecidableEq, Repr

/-- The persistent store touched by order creation. -/
structure OrdersDb where
  products : List Product
  sellerProducts : List SellerProduct
  orders : List Order
  deriving DecidableEq, Repr

/-- Errors of the per-seller partition work. `invalidItems` stands for
the pre-transaction validation failure on an empty item list. -/
inductive OrderError
  | invalidItems
  | productNotFound (id : Nat)
  | sellerProductNotFound (id : Nat)
  | sellerMismatch
  deriving DecidableEq, Repr

/-- Outcome of an order-creation request. -/
inductive CreateResult
  | duplicate (orders : List Order)
  | created (orders : List Order)
  | failed (e : OrderError)
  deriving DecidableEq, Repr

/-- `Product.findById`. -/
def findById (prods : List Product) (pid : Nat) : Option Product :=
  prods.find? (fun p => p.id == pid)

/-- `SellerProduct.findById`. -/
def findSP (sps : List SellerProduct) (spid : Nat) : Option SellerProduct :=
  sps.find? (fun s => s.id == spid)

/-- `product.save()`: replace the stored document with the same id. -/
def saveProduct (prods : List Product) (p : Product) : List Product :=
  prods.map (fun q => if q.id = p.id then p else q)

/-- Group the request items by seller id, preserving first-seen seller
order and input order within each partition (JS object-key insertion
order). -/
def groupBySeller (items : List ReqItem) : List (Nat × List ReqItem) :=
  items.foldl
    (fun acc it =>
      if acc.any (fun p => p.1 == it.seller) then
        acc.map (fun p => if p.1 = it.seller then (p.1, p.2 ++ [it]) else p)
      else acc ++ [(it.seller, [it])])
    []

/-- Per-seller item resolution: look up each product and seller listing,
require the listing's seller to match the partition's seller, increment
the product's `totalSold` and save it, and snapshot an order item at the
listing's `sellerPrice`. The threaded product list reflects the saves
performed before a failure (in `createOrder` these saves are issued
without the session). -/
def processSellerItems (sid : Nat) (sps : List SellerProduct) :
    List Product → List ReqItem →
    List Product × Except OrderError (List OrderItem)
  | prods, [] => (prods, Except.ok [])
  | prods, it :: rest =>
    match findById prods it.product with
    | none => (prods, Except.error (OrderError.productNotFound it.product))
    | some product =>
      match findSP sps it.sellerProduct with
      | none => (prods, Except.error (OrderError.sellerProductNotFound it.sellerProduct))
      | some sp =>
        if sp.seller = sid then
          let product := { product with totalSold := product.totalSold + it.quantity }
          let prods := saveProduct prods product
          let oi : OrderItem :=
            { product := product.id, name := product.name, image := product.image,
              price := sp.sellerPrice, quantity := it.quantity, sku := product.sku }
          match processSellerItems sid sps prods rest with
          | (prods2, Except.ok ois) => (prods2, Except.ok (oi :: ois))
          | (prods2, Except.error e) => (prods2, Except.error e)
        else (prods, Except.error OrderError.sellerMismatch)

/-- `orderItems.reduce((sum, i) => sum + i.price * i.quantity, 0)`. -/
def itemsSum (ois : List OrderItem) : ℚ :=
  ois.foldl (fun s i => s + i.price * i.quantity) 0

/-- `items.reduce((sum, item) => sum + item.price * item.quantity, 0)`:
the pre-discount cart value computed from the request's client-supplied
prices. -/
def totalOrderValue (items : List ReqItem) : ℚ :=
  items.foldl (fun s it => s + it.price * it.quantity) 0

/-- Build one seller's Order: items price from the resolved order items,
zero shipping and tax, the proportional discount share
`discount * (itemsPrice / totalOrderValue)` (zero when the cart value is
non-positive), and `totalPrice` as their signed sum. -/
def mkSellerOrder (uid sid : Nat) (pm : String) (discount tov : ℚ)
    (key : Option String) (now : Int) (oid : Nat) (rid : Option String)
    (ois : List OrderItem) : Order :=
  let itemsPrice := itemsSum ois
  let shippingPrice : ℚ := 0
  let taxPrice : ℚ := 0
  let sellerDiscount := if 0 < tov then discount * (itemsPrice / tov) else 0
  let totalPrice := itemsPrice + shippingPrice + taxPrice - sellerDiscount
  { id := oid, user := uid, seller := sid, orderItems := ois,
    itemsPrice := itemsPrice, taxPrice := taxPrice, shippingPrice := shippingPrice,
    discount := discount, totalPrice := totalPrice,
    orderStatus := "pending", paymentStatus := "pending", paymentMethod := pm,
    orderIdempotencyKey := key, razorpayOrderId := rid, createdAt := now }

/-- The per-seller loop of order creation: resolve each partition's items
(threading the product store), build that seller's order, and collect the
orders; a partition failure stops the loop, keeping the product saves
already issued. -/
def createOrderLoop (uid : Nat) (pm : String) (disc tov : ℚ) (key : Option String)
    (now : Int) (rid : Option String) (sps : List SellerProduct) :
    List Product → List (Nat × List ReqItem) → Nat →
    List Product × Except OrderError (List Order)
  | prods, [], _ => (prods, Except.ok [])
  | prods, (sid, its) :: rest, nid =>
    match processSellerItems sid sps prods its with
    | (prods2, Except.error e) => (prods2, Except.error e)
    | (prods2, Except.ok ois) =>
      let o := mkSellerOrder uid sid pm disc tov key now nid rid ois
      match createOrderLoop uid pm disc tov key now rid sps prods2 rest (nid + 1) with
      | (prods3, Except.ok os) => (prods3, Except.ok (o :: os))
      | (prods3, Except.error e) => (prods3, Except.error e)

/-- The idempotency lookup: `Order.findOne({ user, orderIdempotencyKey,
createdAt: { $gte: now - 5 minutes } })`. -/
def findDuplicate (orders : List Order) (uid : Nat) (k : String) (now : Int) :
    Option Order :=
  orders.find? (fun o =>
    decide (o.user = uid ∧ o.orderIdempotencyKey = some k ∧
      now - 5 * 60 * 1000 ≤ o.createdAt))

/-- `createOrder`: dedup check first (returning `[existingOrder]`
unchanged on a hit), then the per-seller loop inside a storage
transaction. Order saves go through the session, so they are committed
together or dropped on abort; the product `totalSold` saves are issued
WITHOUT the session, so they stay applied even when the transaction
aborts. -/
def createOrder (db : OrdersDb) (now : Int) (userId : Nat) (items : List ReqItem)
    (pm : String) (discount : ℚ) (key : Option String) (nextId : Nat) :
    CreateResult × OrdersDb :=
  let dup := match key with
    | some k => findDuplicate db.orders userId k now
    | none => none
  match dup with
  | some existing => (CreateResult.duplicate [existing], db)
  | none =>
    if items.isEmpty then (CreateResult.failed OrderError.invalidItems, db)
    else
      let tov := totalOrderValue items
      match createOrderLoop userId pm discount tov key now none db.sellerProducts
          db.products (groupBySeller items) nextId with
      | (prods2, Except.ok os) =>
        (CreateResult.created os, { db with products := prods2, orders := db.orders ++ os })
      | (prods2, Except.error e) =>
        (CreateResult.failed e, { db with products := prods2 })

/-- `createOrderForRazorpay`: same splitting logic with payment method
`razorpay` and the gateway order id attached, but here the product saves
go through the session too, so an abort discards every write. -/
def createOrderForRazorpay (db : OrdersDb) (now : Int) (userId : Nat)
    (items : List ReqItem) (discount : ℚ) (key : Option String)
    (razorpayOrderId : String) (nextId : Nat) : CreateResult × OrdersDb :=
  let dup := match key with
    | some k => findDuplicate db.orders userId k now
    | none => none
  match dup with
  | some existing => (CreateResult.duplicate [existing], db)
  | none =>
    if items.isEmpty then (CreateResult.failed OrderError.invalidItems, db)
    else
      let tov := totalOrderValue items
      match createOrderLoop userId "razorpay" discount tov key now
          (some razorpayOrderId) db.sellerProducts db.products
          (groupBySeller items) nextId with
      | (prods2, Except.ok os) =>
        (CreateResult.created os, { db with products := prods2, orders := db.orders ++ os })
      | (_, Except.error e) => (CreateResult.failed e, db)

/-! ### Delivery crediting (`updateOrderStatus`) -/

/-- `Wallet.findOne({ seller })` with create-on-miss defaults. -/
def walletOrCreate (w : Option Wallet) (sid : Nat) : Wallet :=
  match w with
  | some v => v
  | none => { seller := sid }

/-- `updateOrderStatus`: set the new status; when it is `delivered` and
earnings were not credited yet, compute the 10 percent commission and
seller earnings from `totalPrice`, freeze them on the order, flip
`isEarningsCredited`, and credit the earnings to the seller's wallet via
`addTransaction`. -/
def updateOrderStatus (o : Order) (status : String) (wallet : Option Wallet) :
    Order × Option Wallet :=
  let o := { o with orderStatus := status }
  if status = "delivered" ∧ o.isEarningsCredited = false then
    let commission := o.totalPrice * (10 / 100)
    let sellerEarnings := o.totalPrice - commission
    let o := { o with
      commission := some commission,
      sellerEarnings := some sellerEarnings,
      isEarningsCredited := true }
    let w := walletOrCreate wallet o.seller
    let w := addTransaction w TxType.credit sellerEarnings
      ("Earnings from order " ++ o.orderNumber) (some o.id) none
    (o, some w)
  else (o, wallet)

/-! ### Payment capture coordinator (`capturePaymentForOrders`) -/

/-- The gateway's stored order, as returned by `orders.fetch`. -/
structure RpOrder where
  amount : Int
  deriving DecidableEq, Repr

/-- Failure cases of `capturePaymentForOrders`. -/
inductive CaptureError
  | noOrderIds
  | missingFields
  | invalidSignature
  | ordersNotFound
  | notAuthorized
  | rpOrderNotFound
  | amountMismatch
  | captureFailed
  deriving DecidableEq, Repr

/-- All checks of `capturePaymentForOrders`, in source order, before any
order is written: non-empty ids, payment fields present, server-side HMAC
equal to the supplied signature, every id resolving to an order, all
orders owned by the requester, the gateway order fetched, its amount
within 2 minor units of `round(100 * sum(totalPrice))`, and the gateway
capture call succeeding. `hmac` stands for the digest the server computes
from its secret over `orderId|paymentId`; `fetchResult` and `captureOk`
stand for the two gateway calls (an `Except.error` fetch is a thrown
gateway error, caught as a capture failure). -/
def captureChecks (store : List Order) (userId : Nat) (orderIds : List Nat)
    (rpOrderId rpPaymentId rpSignature hmac : String)
    (fetchResult : Except Unit (Option RpOrder)) (captureOk : Bool) :
    Except CaptureError (List Order) :=
  if orderIds.isEmpty then Except.error CaptureError.noOrderIds
  else if rpOrderId = "" ∨ rpPaymentId = "" ∨ rpSignature = "" then
    Except.error CaptureError.missingFields
  else if hmac ≠ rpSignature then Except.error CaptureError.invalidSignature
  else
    let orders := store.filter (fun o => decide (o.id ∈ orderIds))
    if orders.length ≠ orderIds.length then Except.error CaptureError.ordersNotFound
    else if ¬ orders.all (fun o => o.user == userId) then
      Except.error CaptureError.notAuthorized
    else
      let totalAmountPaise : ℤ :=
        round ((orders.foldl (fun s o => s + o.totalPrice) 0) * 100)
      match fetchResult with
      | Except.error _ => Except.error CaptureError.captureFailed
      | Except.ok none => Except.error CaptureError.rpOrderNotFound
      | Except.ok (some rpOrder) =>
        if 2 < |rpOrder.amount - totalAmountPaise| then
          Except.error CaptureError.amountMismatch
        else if captureOk then Except.ok orders
        else Except.error CaptureError.captureFailed

/-- The final write loop: mark every referenced order paid/confirmed with
the payment result attached. -/
def markPaid (store : List Order) (orderIds : List Nat) (pr : PaymentResult) :
    List Order :=
  store.map (fun o =>
    if decide (o.id ∈ orderIds) then
      { o with paymentStatus := "paid", orderStatus := "confirmed",
               paymentMethod := "razorpay", paymentResult := some pr }
    else o)

/-- `capturePaymentForOrders`: run every check, then — only when all of
them pass — update the referenced orders. The order store is untouched on
every failure path. -/
def capturePaymentForOrders (store : List Order) (userId : Nat) (orderIds : List Nat)
    (rpOrderId rpPaymentId rpSignature hmac : String)
    (fetchResult : Except Unit (Option RpOrder)) (captureOk : Bool) :
    Except CaptureError (List Order) × List Order :=
  match captureChecks store userId orderIds rpOrderId rpPaymentId rpSignature hmac
      fetchResult captureOk with
  | Except.error e => (Except.error e, store)
  | Except.ok _ =>
    let pr : PaymentResult :=
      { payId := rpPaymentId, status := "captured",
        razorpayOrderId := rpOrderId, razorpaySignature := rpSignature }
    let store2 := markPaid store orderIds pr
    (Except.ok (store2.filter (fun o => decide (o.id ∈ orderIds))), store2)

/-! ### Concrete example data -/

/-- A store with two products for the partial-abort scenario. -/
def c2Db : OrdersDb :=
  { products := [{ id := 1, name := "P1", image := "", sku := "", totalSold := 0 },
                 { id := 2, name := "P2", image := "", sku := "", totalSold := 0 }],
    sellerProducts := [{ id := 1, seller := 1, sellerPrice := 100 }],
    orders := [] }

/-- A two-seller cart whose second item references a missing listing. -/
def c2Items : List ReqItem :=
  [{ product := 1, seller := 1, sellerProduct := 1, quantity := 1, price := 100 },
   { product := 2, seller := 2, sellerProduct := 2, quantity := 1, price := 50 }]

/-- First order persisted by a previous two-seller request. -/
def c3O1 : Order :=
  { id := 1, user := 7, seller := 1, orderIdempotencyKey := some "k",
    createdAt := 900000 }

/-- Second order persisted by the same previous request. -/
def c3O2 : Order :=
  { id := 2, user := 7, seller := 2, orderIdempotencyKey := some "k",
    createdAt := 900000 }

/-- A store already holding the two orders of the first call. -/
def c3Db : OrdersDb :=
  { products := [], sellerProducts := [], orders := [c3O1, c3O2] }

/-- A non-empty retried cart (its content is irrelevant to the dedup hit). -/
def c3Items : List ReqItem :=
  [{ product := 1, seller := 1, sellerProduct := 1, quantity := 1, price := 100 }]

/-- The request document created by a successful
`createWithdrawalRequest`. -/
def mkWithdrawal (sid wrId : Nat) (amount : ℚ) : WithdrawalRequest :=
  { id := wrId, seller := sid, amount := amount, status := WStatus.pending }

/-- The wallet written by a successful `createWithdrawalRequest` of
`amount`: the explicit unfolding of its effect, used as proof witness. -/
def walletAfterCreate (w : Wallet) (wrId : Nat) (amount : ℚ) : Wallet :=
  { w with balance := w.balance - amount,
           pendingWithdrawals := w.pendingWithdrawals + amount,
           transactions := w.transactions ++
             [{ type := TxType.debit, amount := amount,
                description := "Withdrawal request created",
                orderId := none, withdrawalId := some wrId,
                balance := w.balance - amount, status := TxStatus.pending }] }

/-- Conclusion of the withdrawal round-trip property: starting from
wallet `w`, creating a withdrawal of `amount` debits the balance and
holds the amount; rejecting it restores every aggregate; processing it
after approval keeps the balance, moves the amount from the hold into
`totalWithdrawn` and flips the pending debit entry to completed; and on
any wallet without a matching pending debit entry, processing appends a
completed debit entry instead. -/
def WithdrawalRoundTrip (st : SellerFinState) (w : Wallet) (sid wrId : Nat)
    (amount : ℚ) (txId : String) : Prop :=
  ∃ wr w1,
    createWithdrawalRequest st sid wrId amount
      = (Except.ok wr, { wallet := some w1, withdrawals := st.withdrawals ++ [wr] })
    ∧ wr.amount = amount ∧ wr.status = WStatus.pending ∧ wr.id = wrId
    ∧ w1.balance = w.balance - amount
    ∧ w1.pendingWithdrawals = w.pendingWithdrawals + amount
    ∧ w1.totalWithdrawn = w.totalWithdrawn
    ∧ w1.totalEarnings = w.totalEarnings
    ∧ (∃ wrR w2, rejectWithdrawal wr (some w1) = Except.ok (wrR, some w2)
        ∧ wrR.status = WStatus.rejected
        ∧ w2.balance = w.balance
        ∧ w2.pendingWithdrawals = w.pendingWithdrawals
        ∧ w2.totalWithdrawn = w.totalWithdrawn
        ∧ w2.totalEarnings = w.totalEarnings)
    ∧ (∃ wrA w3, approveWithdrawal wr = Except.ok wrA
        ∧ wrA.status = WStatus.approved
        ∧ processWithdrawal wrA (some w1) txId
            = Except.ok ({ wrA with
                status := WStatus.processed,
                transactionId := some txId }, some w3)
        ∧ w3.balance = w1.balance
        ∧ w3.pendingWithdrawals = w1.pendingWithdrawals - amount
        ∧ w3.totalWithdrawn = w1.totalWithdrawn + amount
        ∧ w3.transactions = w.transactions ++
            [{ type := TxType.debit, amount := amount,
               description := "Withdrawal request created",
               orderId := none, withdrawalId := some wrId,
               balance := w.balance - amount, status := TxStatus.completed }])
    ∧ (∀ v : Wallet, markFirstPendingDebit wrId v.transactions.reverse = none →
        ∀ wrA, approveWithdrawal wr = Except.ok wrA →
        ∃ w4, processWithdrawal wrA (some v) txId
            = Except.ok ({ wrA with
                status := WStatus.processed,
                transactionId := some txId }, some w4)
          ∧ w4.balance = v.balance
          ∧ w4.pendingWithdrawals = v.pendingWithdrawals - amount
          ∧ w4.totalWithdrawn = v.totalWithdrawn + amount
          ∧ w4.transactions = v.transactions ++
              [{ type := TxType.debit, amount := amount,
                 description := "Withdrawal processed",
                 orderId := none, withdrawalId := some wrId,
                 balance := v.balance, status := TxStatus.completed }])

/-- Wallet of the withdrawal round-trip witness scenario. -/
def c4W : Wallet := { seller := 2, balance := 1000, totalEarnings := 1000 }

/-- Seller state of the withdrawal round-trip witness scenario. -/
def c4St : SellerFinState := { wallet := some c4W, withdrawals := [] }

/-- Seller state for the withdrawal precondition-failure witnesses: a
wallet with balance 500 and one already-pending request. -/
def c8St : SellerFinState :=
  { wallet := some { seller := 3, balance := 500 },
    withdrawals := [{ id := 9, seller := 3, amount := 150 }] }

/-- Conclusion of the at-most-once delivery-credit property: the first
delivery transition credits the wallet with exactly one new completed
credit entry of `totalPrice` minus the 10 percent commission, raises
`totalEarnings` and `balance` by that amount, freezes the earnings on
the order and flips `isEarningsCredited`; triggering the delivery
transition again changes nothing. -/
def DeliveryCreditsOnce (o : Order) (wallet : Option Wallet) : Prop :=
  ∃ w1 : Wallet,
    (updateOrderStatus o "delivered" wallet).2 = some w1
    ∧ w1.transactions = (walletOrCreate wallet o.seller).transactions ++
        [{ type := TxType.credit,
           amount := o.totalPrice - o.totalPrice * (10 / 100),
           description := "Earnings from order " ++ o.orderNumber,
           orderId := some o.id, withdrawalId := none,
           balance := (walletOrCreate wallet o.seller).balance,
           status := TxStatus.completed }]
    ∧ w1.totalEarnings = (walletOrCreate wallet o.seller).totalEarnings
        + (o.totalPrice - o.totalPrice * (10 / 100))
    ∧ w1.balance = (walletOrCreate wallet o.seller).balance
        + (o.totalPrice - o.totalPrice * (10 / 100))
    ∧ (updateOrderStatus o "delivered" wallet).1.isEarningsCredited = true
    ∧ (updateOrderStatus o "delivered" wallet).1.sellerEarnings
        = some (o.totalPrice - o.totalPrice * (10 / 100))
    ∧ (updateOrderStatus o "delivered" wallet).1.orderStatus = "delivered"
    ∧ updateOrderStatus (updateOrderStatus o "delivered" wallet).1 "delivered"
          (updateOrderStatus o "delivered" wallet).2
        = ((updateOrderStatus o "delivered" wallet).1,
           (updateOrderStatus o "delivered" wallet).2)

/-- The per-order pricing contract of the splitter: zero shipping and
tax, items price equal to the sum of resolved item prices times
quantities, total price carrying exactly the proportional discount share
`disc * (itemsPrice / tov)` (zero when the cart value is not positive),
and every order item priced from a listing belonging to the order's
seller. -/
def OrderSpecP (sps : List SellerProduct) (disc tov : ℚ) (o : Order) : Prop :=
  o.shippingPrice = 0 ∧ o.taxPrice = 0
  ∧ o.itemsPrice = itemsSum o.orderItems
  ∧ o.totalPrice = o.itemsPrice + o.shippingPrice + o.taxPrice
      - (if 0 < tov then disc * (o.itemsPrice / tov) else 0)
  ∧ ∀ oi ∈ o.orderItems, ∃ sp ∈ sps, sp.seller = o.seller ∧ oi.price = sp.sellerPrice

/-- Delivered order of the delivery-credit witness: totalPrice 1000, no
pre-set commission, not yet credited. -/
def c6Order : Order :=
  { id := 5, user := 7, seller := 4, orderNumber := "ORD-5", totalPrice := 1000 }

/-- Store of the discount-share witness: two products, each listed by a
distinct seller at prices 1000 and 500. -/
def c7Db : OrdersDb :=
  { products := [{ id := 1, name := "P1", image := "", sku := "", totalSold := 0 },
                 { id := 2, name := "P2", image := "", sku := "", totalSold := 0 }],
    sellerProducts := [{ id := 1, seller := 1, sellerPrice := 1000 },
                       { id := 2, seller := 2, sellerPrice := 500 }],
    orders := [] }

/-- Cart of the discount-share witness: one unit from each seller,
pre-discount values 1000 and 500. -/
def c7Items : List ReqItem :=
  [{ product := 1, seller := 1, sellerProduct := 1, quantity := 1, price := 1000 },
   { product := 2, seller := 2, sellerProduct := 2, quantity := 1, price := 500 }]

/-- Result of splitting the witness cart under a 150 cart-level discount. -/
def c7Result : CreateResult × OrdersDb :=
  createOrder c7Db 0 7 c7Items "cod" 150 (some "k7") 1

/-- The orders created by the witness split. -/
def c7Orders : List Order :=
  match c7Result.1 with
  | CreateResult.created os => os
  | _ => []

/-- A paid-for order sitting in the store of the capture witnesses. -/
def c9Order : Order := { id := 1, user := 7, seller := 1, totalPrice := 100 }

/-! ### Claim theorems -/

/-- C1: the claim says every entry appended by `addTransaction` records
the balance AFTER the operation and that the per-entry chain invariant
holds. The code records `balance: this.balance` BEFORE applying the
amount: two credits of 100 and 50 on a fresh wallet produce entries whose
recorded balances are 0 and 100 while the amounts are 100 and 50, so the
second entry's recorded balance (100) is not the first entry's recorded
balance plus its amount (0 + 50), and the account balance (150) differs
from the last entry's recorded balance (100). -/
theorem C1_addTransaction_records_preop_balance :
    (addTransaction (addTransaction { seller := 1 } TxType.credit 100
        "Earnings from order ORD-1" (some 1) none) TxType.credit 50
        "Earnings from order ORD-2" (some 2) none).transactions.map
        Transaction.balance = [0, 100]
    ∧ (addTransaction (addTransaction { seller := 1 } TxType.credit 100
        "Earnings from order ORD-1" (some 1) none) TxType.credit 50
        "Earnings from order ORD-2" (some 2) none).transactions.map
        Transaction.amount = [100, 50]
    ∧ (addTransaction (addTransaction { seller := 1 } TxType.credit 100
        "Earnings from order ORD-1" (some 1) none) TxType.credit 50
        "Earnings from order ORD-2" (some 2) none).balance = 150
    ∧ ((100 : ℚ) ≠ 0 + 50)
    ∧ ((150 : ℚ) ≠ 100) := by
  norm_num [addTransaction]

/-- C2: the claim says order writes and sold-count increments are one
all-or-nothing unit. In `createOrder` the product saves are issued
without the session: on the cart `c2Items` the second partition fails
(listing 2 missing), no order is persisted, yet product 1's sold count
increment survives. `createOrderForRazorpay`, which does pass the
session to the product saves, leaves the store untouched on the same
input. -/
theorem C2_soldCount_survives_abort :
    (createOrder c2Db 1000000 7 c2Items "cod" 0 (some "key1") 1).1
        = CreateResult.failed (OrderError.sellerProductNotFound 2)
    ∧ (createOrder c2Db 1000000 7 c2Items "cod" 0 (some "key1") 1).2.orders = []
    ∧ (createOrder c2Db 1000000 7 c2Items "cod" 0 (some "key1") 1).2.products.map
        Product.totalSold = [1, 0]
    ∧ c2Db.products.map Product.totalSold = [0, 0]
    ∧ (createOrderForRazorpay c2Db 1000000 7 c2Items 0 (some "key1") "rp1" 1).2
        = c2Db := by
  norm_num [createOrder, createOrderForRazorpay, c2Db, c2Items, findDuplicate,
    totalOrderValue, groupBySeller, createOrderLoop, processSellerItems,
    findById, findSP, saveProduct, mkSellerOrder, itemsSum]

/-- C3 counterexample: the first call persisted the two orders `c3O1`
and `c3O2` under key "k"; the retry within 5 minutes answers with the
single order `[c3O1]`, not the first call's full order list — `c3O2`
belongs to the same (buyer, key) order set but is absent from the
response. -/
theorem C3_duplicate_returns_single_order :
    createOrder c3Db 1000000 7 c3Items "cod" 0 (some "k") 3
        = (CreateResult.duplicate [c3O1], c3Db)
    ∧ c3O2 ∈ c3Db.orders ∧ c3O2.user = 7 ∧ c3O2.orderIdempotencyKey = some "k"
    ∧ (1000000 : Int) - 5 * 60 * 1000 ≤ c3O2.createdAt
    ∧ c3O2 ∉ [c3O1] := by
  refine ⟨?_, by norm_num [c3Db, c3O1, c3O2], by norm_num [c3O2],
    by norm_num [c3O2], by norm_num [c3O2], by norm_num [c3O1, c3O2]⟩
  norm_num [createOrder, findDuplicate, c3Db, c3O1, c3O2]

/-- C3 amended: when an order matching (buyer, key) within the 5-minute
window exists, the retry performs no writes (the store is returned
unchanged, so exactly one order set stays persisted) and answers with a
one-element list holding the first stored match — not necessarily the
full list of orders created by the first call. -/
theorem C3_dedup_before_any_write (db : OrdersDb) (now : Int) (uid : Nat)
    (items : List ReqItem) (pm : String) (disc : ℚ) (k : String) (nextId : Nat)
    (o : Order) (h : findDuplicate db.orders uid k now = some o) :
    createOrder db now uid items pm disc (some k) nextId
        = (CreateResult.duplicate [o], db)
    ∧ o ∈ db.orders ∧ o.user = uid ∧ o.orderIdempotencyKey = some k
    ∧ now - 5 * 60 * 1000 ≤ o.createdAt := by
  refine ⟨by simp [createOrder, h], ?_, ?_⟩
  · exact List.mem_of_find?_eq_some h
  · have hp := List.find?_some h
    have hp2 := of_decide_eq_true hp
    exact ⟨hp2.1, hp2.2.1, hp2.2.2⟩

/-- C3 witness: the amended statement applied to the concrete store
`c3Db` with key "k" at time 1000000. -/
theorem C3_dedup_before_any_write_witness :
    createOrder c3Db 1000000 7 c3Items "cod" 0 (some "k") 3
        = (CreateResult.duplicate [c3O1], c3Db)
    ∧ c3O1 ∈ c3Db.orders ∧ c3O1.user = 7 ∧ c3O1.orderIdempotencyKey = some "k"
    ∧ (1000000 : Int) - 5 * 60 * 1000 ≤ c3O1.createdAt :=
  C3_dedup_before_any_write c3Db 1000000 7 c3Items "cod" 0 "k" 3 c3O1
    (by norm_num [findDuplicate, c3Db, c3O1, c3O2])

/-- C4: for every wallet and amount meeting the creation preconditions,
the create/reject/process lifecycle has the claimed ledger algebra:
create moves the amount from balance into the hold, reject restores all
aggregates (net zero, `totalWithdrawn` untouched), and process after
approval keeps the balance while moving the amount from the hold into
`totalWithdrawn`, flipping the pending debit entry to completed (or
appending a completed debit when none matches). -/
theorem C4_withdrawal_round_trip (st : SellerFinState) (w : Wallet)
    (sid wrId : Nat) (amount : ℚ) (txId : String)
    (hw : st.wallet = some w) (h1 : ¬ amount < 100) (h2 : ¬ w.balance < amount)
    (h3 : pendingCount st sid = 0) :
    WithdrawalRoundTrip st w sid wrId amount txId := by
  have hcr : createWithdrawalRequest st sid wrId amount
      = (Except.ok (mkWithdrawal sid wrId amount),
         { wallet := some (walletAfterCreate w wrId amount),
           withdrawals := st.withdrawals ++ [mkWithdrawal sid wrId amount] }) := by
    simp [createWithdrawalRequest, hw, h1, h2, h3, mkWithdrawal, walletAfterCreate]
  refine ⟨mkWithdrawal sid wrId amount, walletAfterCreate w wrId amount, hcr,
    rfl, rfl, rfl, rfl, rfl, rfl, rfl, ?_, ?_, ?_⟩
  · refine ⟨{ mkWithdrawal sid wrId amount with status := WStatus.rejected },
      { walletAfterCreate w wrId amount with
        pendingWithdrawals := (walletAfterCreate w wrId amount).pendingWithdrawals - amount,
        balance := (walletAfterCreate w wrId amount).balance + amount,
        transactions := (walletAfterCreate w wrId amount).transactions ++
          [{ type := TxType.credit, amount := amount,
             description := "Withdrawal request rejected - amount refunded",
             orderId := none, withdrawalId := some wrId,
             balance := (walletAfterCreate w wrId amount).balance + amount,
             status := TxStatus.completed }] }, ?_, rfl, ?_, ?_, rfl, rfl⟩
    · simp [rejectWithdrawal, mkWithdrawal, walletAfterCreate]
    · show w.balance - amount + amount = w.balance
      ring
    · show w.pendingWithdrawals + amount - amount = w.pendingWithdrawals
      ring
  · refine ⟨{ mkWithdrawal sid wrId amount with status := WStatus.approved },
      { walletAfterCreate w wrId amount with
        pendingWithdrawals := (walletAfterCreate w wrId amount).pendingWithdrawals - amount,
        totalWithdrawn := (walletAfterCreate w wrId amount).totalWithdrawn + amount,
        transactions := w.transactions ++
          [{ type := TxType.debit, amount := amount,
             description := "Withdrawal request created",
             orderId := none, withdrawalId := some wrId,
             balance := w.balance - amount, status := TxStatus.completed }] },
      ?_, rfl, ?_, rfl, rfl, rfl, rfl⟩
    · simp [approveWithdrawal, mkWithdrawal]
    · simp [processWithdrawal, mkWithdrawal, walletAfterCreate, markFirstPendingDebit]
  · intro v hv wrA hA
    have hAval : approveWithdrawal (mkWithdrawal sid wrId amount)
        = Except.ok { mkWithdrawal sid wrId amount with status := WStatus.approved } := by
      simp [approveWithdrawal, mkWithdrawal]
    rw [hAval] at hA
    injection hA with hA2
    subst hA2
    refine ⟨{ v with
        pendingWithdrawals := v.pendingWithdrawals - amount,
        totalWithdrawn := v.totalWithdrawn + amount,
        transactions := v.transactions ++
          [{ type := TxType.debit, amount := amount,
             description := "Withdrawal processed",
             orderId := none, withdrawalId := some wrId,
             balance := v.balance, status := TxStatus.completed }] },
      ?_, rfl, rfl, rfl, rfl⟩
    simp [processWithdrawal, mkWithdrawal, hv]

/-- C4 witness: the round trip on a wallet with balance 1000 and a
withdrawal of 300. -/
theorem C4_withdrawal_round_trip_witness :
    WithdrawalRoundTrip c4St c4W 2 11 300 "TX1" :=
  C4_withdrawal_round_trip c4St c4W 2 11 300 "TX1" rfl (by norm_num)
    (by norm_num [c4W]) rfl

/-- C5: the recomputation writes a ledger state that is a function of
the delivered orders and withdrawal requests alone — every ledger field
of the upserted wallet is independent of the previously stored wallet —
and running it twice in a row with unchanged sources stores the identical
wallet. -/
theorem C5_recompute_idempotent (prev prev2 : Option Wallet) (sid : Nat)
    (orders : List Order) (withdrawals : List WithdrawalRequest) :
    recomputeWalletForSeller (some (recomputeWalletForSeller prev sid orders withdrawals))
        sid orders withdrawals
      = recomputeWalletForSeller prev sid orders withdrawals
    ∧ (recomputeWalletForSeller prev sid orders withdrawals).transactions
        = (recomputeWalletForSeller prev2 sid orders withdrawals).transactions
    ∧ (recomputeWalletForSeller prev sid orders withdrawals).balance
        = (recomputeWalletForSeller prev2 sid orders withdrawals).balance
    ∧ (recomputeWalletForSeller prev sid orders withdrawals).totalEarnings
        = (recomputeWalletForSeller prev2 sid orders withdrawals).totalEarnings
    ∧ (recomputeWalletForSeller prev sid orders withdrawals).totalWithdrawn
        = (recomputeWalletForSeller prev2 sid orders withdrawals).totalWithdrawn
    ∧ (recomputeWalletForSeller prev sid orders withdrawals).pendingWithdrawals
        = (recomputeWalletForSeller prev2 sid orders withdrawals).pendingWithdrawals := by
  cases prev <;> cases prev2 <;> simp [recomputeWalletForSeller]

/-- C8: each withdrawal-creation precondition failure — amount below the
minimum of 100, amount above the wallet balance (the InsufficientFunds
case, also raised when no wallet exists), or an existing pending request
— produces its error and returns the seller state unchanged: no request
is created, no ledger entry appended, no aggregate moved. -/
theorem C8_withdrawal_precondition_failures (st : SellerFinState) (w : Wallet)
    (sid wrId : Nat) (amount : ℚ) :
    (amount < 100 →
      createWithdrawalRequest st sid wrId amount
        = (Except.error WithdrawError.minAmount, st))
    ∧ (¬ amount < 100 → st.wallet = none →
      createWithdrawalRequest st sid wrId amount
        = (Except.error WithdrawError.insufficientBalance, st))
    ∧ (¬ amount < 100 → st.wallet = some w → w.balance < amount →
      createWithdrawalRequest st sid wrId amount
        = (Except.error WithdrawError.insufficientBalance, st))
    ∧ (¬ amount < 100 → st.wallet = some w → ¬ w.balance < amount →
        0 < pendingCount st sid →
      createWithdrawalRequest st sid wrId amount
        = (Except.error WithdrawError.pendingExists, st)) := by
  refine ⟨fun h => by simp [createWithdrawalRequest, h],
    fun h1 hn => by simp [createWithdrawalRequest, h1, hn],
    fun h1 hw h2 => by simp [createWithdrawalRequest, h1, hw, h2],
    fun h1 hw h2 h3 => by simp [createWithdrawalRequest, h1, hw, h2, h3.ne.symm]⟩

/-- C8 witness: on the concrete state `c8St` (balance 500, one pending
request) a request of 50 fails the minimum, 600 fails the balance check,
and 200 hits the pending-request conflict — all leaving the state
unchanged. -/
theorem C8_withdrawal_precondition_failures_witness :
    createWithdrawalRequest c8St 3 10 50
        = (Except.error WithdrawError.minAmount, c8St)
    ∧ createWithdrawalRequest c8St 3 10 600
        = (Except.error WithdrawError.insufficientBalance, c8St)
    ∧ createWithdrawalRequest c8St 3 10 200
        = (Except.error WithdrawError.pendingExists, c8St) := by
  refine ⟨(C8_withdrawal_precondition_failures c8St { seller := 3, balance := 500 }
      3 10 50).1 (by norm_num),
    (C8_withdrawal_precondition_failures c8St { seller := 3, balance := 500 }
      3 10 600).2.2.1 (by norm_num) rfl (by norm_num),
    (C8_withdrawal_precondition_failures c8St { seller := 3, balance := 500 }
      3 10 200).2.2.2 (by norm_num) rfl (by norm_num)
      (by norm_num [pendingCount, c8St])⟩

/-- C6: transitioning an uncredited order with no pre-set commission to
`delivered` credits the seller's ledger with `totalPrice` minus the 10
percent commission exactly once: the flag flips false to true and a
second delivery trigger adds no second credit. -/
theorem C6_delivery_credits_once (o : Order) (wallet : Option Wallet)
    (hc : o.isEarningsCredited = false) (hcom : o.commission = none) :
    DeliveryCreditsOnce o wallet := by
  refine ⟨addTransaction (walletOrCreate wallet o.seller) TxType.credit
      (o.totalPrice - o.totalPrice * (10 / 100))
      ("Earnings from order " ++ o.orderNumber) (some o.id) none,
    ?_, rfl, rfl, rfl, ?_, ?_, ?_, ?_⟩
  · simp [updateOrderStatus, hc]
  · simp [updateOrderStatus, hc]
  · simp [updateOrderStatus, hc]
  · simp [updateOrderStatus, hc]
  · simp [updateOrderStatus, hc]

/-- C6 witness: the delivery credit on `c6Order` (totalPrice 1000, no
wallet yet): the credited amount is 900 and the created wallet's
earnings and balance are 900. -/
theorem C6_delivery_credits_once_witness :
    DeliveryCreditsOnce c6Order none
    ∧ c6Order.totalPrice - c6Order.totalPrice * (10 / 100) = 900
    ∧ (updateOrderStatus c6Order "delivered" none).2.map Wallet.totalEarnings
        = some 900 := by
  refine ⟨C6_delivery_credits_once c6Order none rfl rfl, by norm_num [c6Order], ?_⟩
  norm_num [updateOrderStatus, c6Order, walletOrCreate, addTransaction]

/-- Every order item produced by a successful per-seller resolution is
priced from a listing of that seller. -/
theorem processSellerItems_prices (sid : Nat) (sps : List SellerProduct) :
    ∀ (its : List ReqItem) (prods prods2 : List Product) (ois : List OrderItem),
      processSellerItems sid sps prods its = (prods2, Except.ok ois) →
      ∀ oi ∈ ois, ∃ sp ∈ sps, sp.seller = sid ∧ oi.price = sp.sellerPrice := by
  intro its
  induction its with
  | nil =>
    intro prods prods2 ois h oi hoi
    simp only [processSellerItems, Prod.mk.injEq] at h
    obtain ⟨h1, h2⟩ := h
    cases h2
    simp at hoi
  | cons it rest ih =>
    intro prods prods2 ois h oi hoi
    simp only [processSellerItems] at h
    cases hp : findById prods it.product with
    | none => rw [hp] at h; simp at h
    | some product =>
      rw [hp] at h
      cases hs : findSP sps it.sellerProduct with
      | none => rw [hs] at h; simp at h
      | some sp =>
        rw [hs] at h
        simp only at h
        by_cases hm : sp.seller = sid
        · rw [if_pos hm] at h
          cases hr : processSellerItems sid sps
              (saveProduct prods { product with totalSold := product.totalSold + it.quantity })
              rest with
          | mk ps res =>
            rw [hr] at h
            cases res with
            | error e => simp at h
            | ok ois2 =>
              simp only [Prod.mk.injEq, Except.ok.injEq] at h
              obtain ⟨hps, hois⟩ := h
              cases hois
              rcases List.mem_cons.mp hoi with hoi1 | hoi2
              · cases hoi1
                exact ⟨sp, List.mem_of_find?_eq_some hs, hm, rfl⟩
              · exact ih _ _ _ hr oi hoi2
        · rw [if_neg hm] at h; simp at h

/-- Every order produced by a successful splitter loop satisfies the
pricing contract `OrderSpecP`. -/
theorem createOrderLoop_spec (uid : Nat) (pm : String) (disc tov : ℚ)
    (key : Option String) (now : Int) (rid : Option String)
    (sps : List SellerProduct) :
    ∀ (groups : List (Nat × List ReqItem)) (prods prods2 : List Product)
      (nid : Nat) (os : List Order),
      createOrderLoop uid pm disc tov key now rid sps prods groups nid
          = (prods2, Except.ok os) →
      ∀ o ∈ os, OrderSpecP sps disc tov o := by
  intro groups
  induction groups with
  | nil =>
    intro prods prods2 nid os h o ho
    simp only [createOrderLoop, Prod.mk.injEq, Except.ok.injEq] at h
    obtain ⟨h1, h2⟩ := h
    cases h2
    simp at ho
  | cons g rest ih =>
    intro prods prods2 nid os h o ho
    obtain ⟨sid, its⟩ := g
    simp only [createOrderLoop] at h
    cases hp : processSellerItems sid sps prods its with
    | mk ps res =>
      rw [hp] at h
      cases res with
      | error e => simp at h
      | ok ois =>
        simp only at h
        cases hr : createOrderLoop uid pm disc tov key now rid sps ps rest (nid + 1) with
        | mk ps2 res2 =>
          rw [hr] at h
          cases res2 with
          | error e => simp at h
          | ok os2 =>
            simp only [Prod.mk.injEq, Except.ok.injEq] at h
            obtain ⟨hps, hos⟩ := h
            cases hos
            rcases List.mem_cons.mp ho with ho1 | ho2
            · cases ho1
              exact ⟨rfl, rfl, rfl, rfl, fun oi hoi =>
                processSellerItems_prices sid sps its prods ps ois hp oi hoi⟩
            · exact ih ps ps2 (nid + 1) os2 hr o ho2

/-- C7: every order created by the splitter resolves its item prices
from the seller's listing, and its `totalPrice` equals
`itemsPrice + shippingPrice + taxPrice` minus the proportional share
`discount * (itemsPrice / totalOrderValue)` of the cart-level discount
(zero when the cart value is not positive), where `totalOrderValue` is
the pre-discount sum of `price * quantity` over the request's cart
items. -/
theorem C7_discount_share (db : OrdersDb) (now : Int) (uid : Nat)
    (items : List ReqItem) (pm : String) (disc : ℚ) (key : Option String)
    (nextId : Nat) (os : List Order) (db2 : OrdersDb)
    (h : createOrder db now uid items pm disc key nextId
        = (CreateResult.created os, db2)) :
    ∀ o ∈ os, OrderSpecP db.sellerProducts disc (totalOrderValue items) o := by
  simp only [createOrder] at h
  cases key with
  | none =>
    simp only at h
    by_cases hempty : items.isEmpty
    · rw [if_pos hempty] at h; simp at h
    · rw [if_neg hempty] at h
      cases hloop : createOrderLoop uid pm disc (totalOrderValue items) none now none
          db.sellerProducts db.products (groupBySeller items) nextId with
      | mk prods2 res =>
        rw [hloop] at h
        cases res with
        | error e => simp at h
        | ok os2 =>
          simp only [Prod.mk.injEq, CreateResult.created.injEq] at h
          obtain ⟨hos, hdb⟩ := h
          cases hos
          exact createOrderLoop_spec uid pm disc (totalOrderValue items) none now none
            db.sellerProducts (groupBySeller items) db.products prods2 nextId _ hloop
  | some k =>
    simp only at h
    cases hdup : findDuplicate db.orders uid k now with
    | some ex => rw [hdup] at h; simp at h
    | none =>
      rw [hdup] at h
      simp only at h
      by_cases hempty : items.isEmpty
      · rw [if_pos hempty] at h; simp at h
      · rw [if_neg hempty] at h
        cases hloop : createOrderLoop uid pm disc (totalOrderValue items) (some k) now none
            db.sellerProducts db.products (groupBySeller items) nextId with
        | mk prods2 res =>
          rw [hloop] at h
          cases res with
          | error e => simp at h
          | ok os2 =>
            simp only [Prod.mk.injEq, CreateResult.created.injEq] at h
            obtain ⟨hos, hdb⟩ := h
            cases hos
            exact createOrderLoop_spec uid pm disc (totalOrderValue items) (some k) now none
              db.sellerProducts (groupBySeller items) db.products prods2 nextId _ hloop

/-- C7 witness: splitting the 1000/500 two-seller cart under a 150
discount satisfies the pricing contract, and the created orders carry
totalPrice 900 and 450 — shares of exactly 100 and 50. -/
theorem C7_discount_share_witness :
    (∀ o ∈ c7Orders, OrderSpecP c7Db.sellerProducts 150 (totalOrderValue c7Items) o)
    ∧ c7Result.1 = CreateResult.created c7Orders
    ∧ c7Orders.map Order.itemsPrice = [1000, 500]
    ∧ c7Orders.map Order.totalPrice = [900, 450] := by
  have hc1 : c7Result.1 = CreateResult.created c7Orders := by
    norm_num [c7Result, c7Orders, c7Db, c7Items, createOrder, findDuplicate,
      totalOrderValue, groupBySeller, createOrderLoop, processSellerItems,
      findById, findSP, saveProduct, mkSellerOrder, itemsSum]
  refine ⟨C7_discount_share c7Db 0 7 c7Items "cod" 150 (some "k7") 1 c7Orders
      c7Result.2 ?_, hc1, ?_, ?_⟩
  · exact Prod.ext hc1 rfl
  · norm_num [c7Result, c7Orders, c7Db, c7Items, createOrder, findDuplicate,
      totalOrderValue, groupBySeller, createOrderLoop, processSellerItems,
      findById, findSP, saveProduct, mkSellerOrder, itemsSum]
  · norm_num [c7Result, c7Orders, c7Db, c7Items, createOrder, findDuplicate,
      totalOrderValue, groupBySeller, createOrderLoop, processSellerItems,
      findById, findSP, saveProduct, mkSellerOrder, itemsSum]

/-- C9: every failure of the payment capture — empty or missing fields,
signature mismatch, unresolved orders, ownership mismatch, missing
gateway order, amount mismatch, or gateway capture error — leaves the
order store untouched: no paymentStatus, orderStatus, paymentMethod or
payment result of any order changes on a failure path. -/
theorem C9_capture_failure_no_mutation (store : List Order) (userId : Nat)
    (orderIds : List Nat) (roid rpid rsig hmac : String)
    (fetchResult : Except Unit (Option RpOrder)) (captureOk : Bool)
    (e : CaptureError)
    (h : (capturePaymentForOrders store userId orderIds roid rpid rsig hmac
        fetchResult captureOk).1 = Except.error e) :
    (capturePaymentForOrders store userId orderIds roid rpid rsig hmac
        fetchResult captureOk).2 = store := by
  unfold capturePaymentForOrders at h ⊢
  cases hc : captureChecks store userId orderIds roid rpid
      rsig hmac fetchResult captureOk with
  | error e2 => rfl
  | ok os => rw [hc] at h; simp at h

/-- C9 witness: a capture attempt with a wrong signature leaves the
one-order store unchanged. -/
theorem C9_capture_failure_no_mutation_witness :
    (capturePaymentForOrders [c9Order] 7 [1] "rpo1" "pay1" "sigA" "sigB"
        (Except.ok (some { amount := 10000 })) true).2 = [c9Order] :=
  C9_capture_failure_no_mutation [c9Order] 7 [1] "rpo1" "pay1" "sigA" "sigB"
    (Except.ok (some { amount := 10000 })) true CaptureError.invalidSignature
    (by simp [capturePaymentForOrders, captureChecks])

/-- C10: once the signature, existence and ownership checks pass and the
gateway order is fetched, the amount-mismatch rejection triggers exactly
when the absolute difference between the gateway order's amount and
`round(100 * sum(totalPrice))` exceeds 2 — differences of 0, 1 or 2 are
accepted, 3 or more are rejected. -/
theorem C10_amount_tolerance (store : List Order) (userId : Nat)
    (orderIds : List Nat) (roid rpid rsig : String) (rp : RpOrder)
    (captureOk : Bool)
    (h1 : ¬ orderIds.isEmpty = true)
    (h2 : ¬ (roid = "" ∨ rpid = "" ∨ rsig = ""))
    (h4 : (store.filter (fun o => decide (o.id ∈ orderIds))).length
        = orderIds.length)
    (h5 : (store.filter (fun o => decide (o.id ∈ orderIds))).all
        (fun o => o.user == userId) = true) :
    ((capturePaymentForOrders store userId orderIds roid rpid rsig rsig
        (Except.ok (some rp)) captureOk).1
      = Except.error CaptureError.amountMismatch
    ↔ 2 < |rp.amount - round (((store.filter
        (fun o => decide (o.id ∈ orderIds))).foldl
          (fun s o => s + o.totalPrice) 0) * 100)|) := by
  have hchecks : captureChecks store userId orderIds roid rpid rsig rsig
      (Except.ok (some rp)) captureOk
      = (if 2 < |rp.amount - round (((store.filter
            (fun o => decide (o.id ∈ orderIds))).foldl
              (fun s o => s + o.totalPrice) 0) * 100)| then
          Except.error CaptureError.amountMismatch
        else if captureOk then
          Except.ok (store.filter (fun o => decide (o.id ∈ orderIds)))
        else Except.error CaptureError.captureFailed) := by
    simp only [captureChecks]
    rw [if_neg h1, if_neg h2, if_neg (by simp : ¬ (rsig ≠ rsig)),
      if_neg (by simp [h4] :
        ¬ ((store.filter (fun o => decide (o.id ∈ orderIds))).length
          ≠ orderIds.length)),
      if_neg (not_not_intro h5)]
  simp only [capturePaymentForOrders, hchecks]
  by_cases hd : 2 < |rp.amount - round (((store.filter
      (fun o => decide (o.id ∈ orderIds))).foldl
        (fun s o => s + o.totalPrice) 0) * 100)|
  · rw [if_pos hd]
    simp [hd]
  · rw [if_neg hd]
    cases captureOk with
    | false => simp [hd]
    | true => simp [hd]

/-- C10 witness: gateway amount 10003 against one order of totalPrice
100 (10000 paise): the difference is 3, so the mismatch rejection
triggers. -/
theorem C10_amount_tolerance_witness :
    ((capturePaymentForOrders [c9Order] 7 [1] "rpo1" "pay1" "sigA" "sigA"
        (Except.ok (some { amount := 10003 })) true).1
      = Except.error CaptureError.amountMismatch
    ↔ 2 < |(10003 : ℤ) - round ((([c9Order].filter
        (fun o => decide (o.id ∈ [1]))).foldl
          (fun s o => s + o.totalPrice) 0) * 100)|)
    ∧ (capturePaymentForOrders [c9Order] 7 [1] "rpo1" "pay1" "sigA" "sigA"
        (Except.ok (some { amount := 10003 })) true).1
      = Except.error CaptureError.amountMismatch := by
  have hiff := C10_amount_tolerance [c9Order] 7 [1] "rpo1" "pay1" "sigA"
    { amount := 10003 } true (by decide) (by decide) (by decide) (by decide)
  refine ⟨hiff, hiff.mpr ?_⟩
  rw [round_eq]
  norm_num [c9Order]

end MVG
